import Mathlib

/-!
Verification of the query-analysis core of `icantbelieveitsnotsql`
(`src/main.rs`), a schema-aware SQL query analyzer.

The development is a shallow embedding of the program's analysis layer.
The external `sqlparser` crate (raw SQL text → AST) is out of scope: its
output is modelled by the inductive AST types below, restricted to the
constructors the program actually inspects; every constructor the program
treats uniformly through a catch-all arm is collapsed into a single
catch-all constructor carrying a description string.  All functions below
are translated directly from `src/main.rs`; line numbers in the doc
comments refer to that file.  Rust `HashMap<String, V>` is modelled as an
association list with replace-on-insert semantics (`hmInsert` removes any
previous binding of the key), so that `hmGet` agrees with `HashMap::get`;
the maps built by the program are only ever queried by key (never
iterated for results), so the representation order is unobservable.
A Rust panic (here only the `Option::unwrap` on line 395) is modelled by
returning `none`: `none` means the process aborts at that point and every
accumulated result is lost.
-/

namespace ICBINSQL

/-- Association-list model of Rust's `HashMap String V`: only `hmGet`
observations matter to the program. -/
abbrev HM (V : Type) := List (String × V)

/-- `HashMap::get`: the value bound to `k`, if any. -/
def hmGet {V : Type} : HM V → String → Option V
  | [], _ => none
  | (k2, v) :: rest, k => if k2 = k then some v else hmGet rest k

/-- `HashMap::insert`: binds `k` to `v`, replacing any previous binding of
`k` entirely. -/
def hmInsert {V : Type} (k : String) (v : V) (m : HM V) : HM V :=
  (k, v) :: m.filter (fun p => p.1 != k)

/-- `HashMap::extend`: inserts every binding of `extra` into `m`. -/
def hmExtend {V : Type} (m extra : HM V) : HM V :=
  extra.foldl (fun acc p => hmInsert p.1 p.2 acc) m

/-- Rust `as usize` applied to an `i32` value on a 64-bit target: the value
is sign-extended and reinterpreted, so a negative `i` becomes `2^64 + i`. -/
def usize_of_i32 (i : Int) : Nat := (i % (2 : Int) ^ 64).toNat

/-- Core of Rust's `str::split(pat)`: scans `s` left to right; at each
leftmost occurrence of the (non-empty) separator it closes the current
piece (accumulated reversed in `cur`) and skips the separator.  The fuel
argument, always at least `s.length`, only makes the recursion structural;
each step consumes at least one character, so it is never exhausted for a
non-empty separator. -/
def split_on_go (sep : List Char) : Nat → List Char → List Char →
    List (List Char)
  | 0, s, cur => [cur.reverse ++ s]
  | _ + 1, [], cur => [cur.reverse]
  | fuel + 1, c :: rest, cur =>
    if sep ≠ [] ∧ sep.isPrefixOf (c :: rest) then
      cur.reverse :: split_on_go sep fuel ((c :: rest).drop sep.length) []
    else
      split_on_go sep fuel rest (c :: cur)

/-- Rust `str::split(sep)` collected into a vector: the pieces of `s`
between consecutive non-overlapping occurrences of `sep`.  Always returns
at least one piece; `"a,b".split(",") = ["a", "b"]`,
`"".split(",") = [""]`, `"a,".split(",") = ["a", ""]`. -/
def split_on (s sep : String) : List String :=
  (split_on_go sep.data (s.data.length + 1) s.data []).map
    (fun cs => String.mk cs)

/-- `extract_debug_block_with_line_number_range` (main.rs:42-61): splits
`text` on newlines, skips `line_start` lines (cast to `usize`), takes
`line_end - line_start` lines (cast to `usize`), and renders each as
`<1-based line number>\t<line>`, joined with newlines. -/
def extract_debug_block_with_line_number_range
    (text : String) (line_start line_end : Int) : String :=
  let block_lines :=
    (((split_on text "\n").drop (usize_of_i32 line_start)).take
        (usize_of_i32 (line_end - line_start))).enum.map
      (fun p => toString (usize_of_i32 line_start + p.1 + 1) ++ "\t" ++ p.2)
  String.intercalate "\n" block_lines

/-- The digit run of Rust's integer parsing: `some` of the decimal value
when every character is a digit and there is at least one, else `none`. -/
def parse_digits_go : List Char → Nat → Option Nat
  | [], acc => some acc
  | c :: rest, acc =>
    if c.isDigit then parse_digits_go rest (10 * acc + (c.toNat - 48))
    else none

/-- Rust `str::parse::<i32>`: an optional `+`/`-` sign, then one or more
decimal digits, with the value required to lie in the `i32` range;
anything else is a parse error (`none`). -/
def parse_i32 (s : String) : Option Int :=
  let signed : Int × List Char :=
    match s.data with
    | '-' :: rest => (-1, rest)
    | '+' :: rest => (1, rest)
    | cs => (1, cs)
  match signed.2 with
  | [] => none
  | digits =>
    match parse_digits_go digits 0 with
    | some n =>
      let v : Int := signed.1 * n
      if -(2 : Int) ^ 31 ≤ v ∧ v < (2 : Int) ^ 31 then some v else none
    | none => none

/-- `extract_line_number_from_parse_error` (main.rs:63-79): splits the
message on `"Line: "`; with fewer than two parts returns `-1`; otherwise
takes the second part up to the first `','` and parses it as an `i32`,
returning `-1` on a parse failure.  (Rust's `split(',').next()` is always
`Some`, so its `None` arm is dead; it is kept here as the `none` arm of the
`head?` match.) -/
def extract_line_number_from_parse_error (parse_error : String) : Int :=
  match split_on parse_error "Line: " with
  | _ :: after_line :: _ =>
    match (split_on after_line ",").head? with
    | some before_comma =>
      match parse_i32 before_comma with
      | some n => n
      | none => -1
    | none => -1
  | _ => -1

/-- `sqlparser::parser::ParserError` at the program's boundary: the program
only distinguishes the `ParserError(msg)` variant (whose message may embed
a line number) from the others. -/
inductive ParserError
  | parserError (msg : String)
  | tokenizerError (msg : String)
  | recursionLimitExceeded
  deriving DecidableEq

/-- The fragment of `sqlparser::ast::TableFactor` the program inspects
(main.rs:444-455): a plain `Table { name, alias, .. }`, or anything else
(derived tables, functions, …), which the program treats uniformly. -/
inductive TableFactor
  | table (name : String) (table_alias : Option String)
  | unsupportedRelation (desc : String)
  deriving DecidableEq

/-- A `sqlparser::ast::Join`: the program reads only its `relation`. -/
structure Join where
  relation : TableFactor
  deriving DecidableEq

/-- A `sqlparser::ast::TableWithJoins`. -/
structure TableWithJoins where
  relation : TableFactor
  joins : List Join
  deriving DecidableEq

/-- The fragment of `sqlparser::ast::Expr` the program inspects
(main.rs:467-527): identifiers, compound identifiers (already rendered to
their display strings, as the program immediately calls `to_string`), and
a catch-all for every other expression. -/
inductive Expr
  | identifier (ident : String)
  | compoundIdentifier (idents : List String)
  | unsupportedExpr (desc : String)
  deriving DecidableEq

/-- `sqlparser::ast::SelectItem` (main.rs:466-531).  The `kind`/`options`
payloads of the wildcard variants are never read by the program and are
omitted. -/
inductive SelectItem
  | unnamedExpr (expr : Expr)
  | exprWithAlias (expr : Expr) (item_alias : String)
  | qualifiedWildcard
  | wildcard
  deriving DecidableEq

/-- The fragment of `sqlparser::ast::Select` the program reads: the FROM
clause and the projection list.  (`from` is a Lean keyword, hence
`from_`.) -/
structure Select where
  from_ : List TableWithJoins
  projection : List SelectItem
  deriving DecidableEq

/-- `sqlparser::ast::SetExpr`, the body of a `Query`: the program only
distinguishes a plain `Select` (via `as_select`) from everything else. -/
inductive SetExpr
  | select (s : Select)
  | setOperation
  | values
  | nestedQuery
  deriving DecidableEq

/-- `SetExpr::as_select`: `Some` exactly for a plain `Select` body. -/
def SetExpr.as_select : SetExpr → Option Select
  | .select s => some s
  | _ => none

/-- The fragment of `sqlparser::ast::Query` the program reads. -/
structure Query where
  body : SetExpr
  deriving DecidableEq

/-- `sqlparser::ast::Statement` restricted to the arms the program
matches (main.rs:281-293 and 393-424).  The payloads of
`Insert`/`Update`/`Delete` are bound but never read by the program and are
omitted; `CreateTable` keeps its name and its column list as
`(name, rendered data type)` pairs, which is all `parse_schema_file`
reads of it. -/
inductive Statement
  | query (q : Query)
  | insert
  | update
  | delete
  | createTable (name : String) (columns : List (String × String))
  | other (desc : String)
  deriving DecidableEq

/-- Is this statement a `CREATE TABLE`?  (The arm `parse_schema_file`
acts on; every other statement falls into its `_ => {}` arm.) -/
def Statement.is_create_table : Statement → Bool
  | .createTable _ _ => true
  | _ => false

/-- `SchemaParseResult` (main.rs:217-220). -/
structure SchemaParseResult where
  table_fields : HM (HM String)
  deriving DecidableEq

/-- `SchemaParseError` (main.rs:222-226). -/
structure SchemaParseError where
  parser_error : ParserError
  debug : Option String
  deriving DecidableEq

/-- `SchemaParseError::from_parser_error` (main.rs:228-250). -/
def SchemaParseError.from_parser_error
    (schema_file_contents : String) (parser_error : ParserError) :
    SchemaParseError :=
  match parser_error with
  | .parserError msg =>
    let line_number := extract_line_number_from_parse_error msg
    ⟨parser_error,
      some (extract_debug_block_with_line_number_range schema_file_contents
        (line_number - 2) (line_number + 2))⟩
  | _ => ⟨parser_error, none⟩

/-- The per-`CREATE TABLE` column map (main.rs:285-289): every declared
column is inserted into a fresh map, name ↦ rendered data type. -/
def column_map (columns : List (String × String)) : HM String :=
  columns.foldl (fun m c => hmInsert c.1 c.2 m) []

/-- `parse_schema_file` (main.rs:268-302), after the external parse: every
`CreateTable` statement inserts its column map under its table name
(replacing any earlier binding); every other statement is ignored.  The
`Err` branch of the Rust function merely wraps the external parser's error
and is modelled at the batch level (`runBatch`). -/
def parse_schema_file (ast : List Statement) : SchemaParseResult :=
  ⟨ast.foldl
    (fun tables statement =>
      match statement with
      | .createTable name columns => hmInsert name (column_map columns) tables
      | _ => tables)
    []⟩

/-- `QueryInputField` (main.rs:304-308). -/
structure QueryInputField where
  name : String
  data_type : String
  deriving DecidableEq

/-- `QueryOutputFieldSource` (main.rs:310-318): the enum has exactly one
variant, `TableField`. -/
inductive QueryOutputFieldSource
  | tableField (database : Option String) (schema : Option String)
      (table : Option String) (field : String)
  deriving DecidableEq

/-- `QueryOutputField` (main.rs:320-324). -/
structure QueryOutputField where
  source : QueryOutputFieldSource
  name : String
  deriving DecidableEq

/-- `QueryParseResult` (main.rs:326-331). -/
structure QueryParseResult where
  statement : Statement
  input_fields : List QueryInputField
  output_fields : List QueryOutputField
  deriving DecidableEq

/-- `QueryParseError` (main.rs:333-337). -/
structure QueryParseError where
  parser_error : ParserError
  debug : Option String
  deriving DecidableEq

/-- `QueryParseError::from_parser_error` (main.rs:339-358). -/
def QueryParseError.from_parser_error
    (query_file_contents : String) (parser_error : ParserError) :
    QueryParseError :=
  match parser_error with
  | .parserError msg =>
    let line_number := extract_line_number_from_parse_error msg
    ⟨parser_error,
      some (extract_debug_block_with_line_number_range query_file_contents
        (line_number - 2) (line_number + 2))⟩
  | _ => ⟨parser_error, none⟩

/-- `extract_aliases_using_relation` (main.rs:441-458): for a plain table
with an alias, a one-entry map alias ↦ table name; for a plain table
without an alias, the empty map; for any other relation kind, a diagnostic
is printed and the empty map is returned. -/
def extract_aliases_using_relation (table_factor : TableFactor) : HM String :=
  match table_factor with
  | .table name table_alias =>
    match table_alias with
    | some a => hmInsert a name []
    | none => []
  | .unsupportedRelation _ => []

/-- `extract_output_fields_from_select_item` (main.rs:460-535), translated
arm by arm.  Note in particular: a bare identifier is emitted with
`table := none` unconditionally; a two-part identifier resolves its first
part through `aliases`, falling back to the literal text; the
`ExprWithAlias`, `QualifiedWildcard` and `Wildcard` arms are empty and
produce no fields; unsupported shapes print a diagnostic and produce no
fields. -/
def extract_output_fields_from_select_item
    (select_item : SelectItem) (aliases : HM String) :
    List QueryOutputField :=
  match select_item with
  | .unnamedExpr expr =>
    match expr with
    | .identifier ident =>
      [⟨.tableField none none none ident, ident⟩]
    | .compoundIdentifier idents =>
      match idents with
      | [alias_or_table, field] =>
        let table :=
          match hmGet aliases alias_or_table with
          | some aliased_table => aliased_table
          | none => alias_or_table
        [⟨.tableField none none (some table) field, field⟩]
      | [database_or_schema, table, field] =>
        [⟨.tableField none (some database_or_schema) (some table) field,
          field⟩]
      | [database, schema, table, field] =>
        [⟨.tableField (some database) (some schema) (some table) field,
          field⟩]
      | _ => []
    | .unsupportedExpr _ => []
  | .exprWithAlias _ _ => []
  | .qualifiedWildcard => []
  | .wildcard => []

/-- The body of `parse_query_file`'s per-statement loop (main.rs:388-434).
For a `Query` the program calls `query.body.as_select().unwrap()` — a
panic (modelled as `none`) whenever the body is not a plain `SELECT`;
otherwise it folds the FROM entries and their joins into the alias map and
folds the projection into the output fields.  `input_fields` is created
empty and never extended.  The `Insert`/`Update`/`Delete` arms bind their
payloads but do nothing; together with the catch-all they produce a result
with empty field lists. -/
def analyze_statement (statement : Statement) : Option QueryParseResult :=
  match statement with
  | .query q =>
    match q.body.as_select with
    | none => none
    | some select =>
      let aliases :=
        select.from_.foldl
          (fun al table_with_joins =>
            let al :=
              hmExtend al
                (extract_aliases_using_relation table_with_joins.relation)
            table_with_joins.joins.foldl
              (fun al join =>
                hmExtend al (extract_aliases_using_relation join.relation))
              al)
          []
      let output_fields :=
        select.projection.foldl
          (fun fields entry =>
            fields ++ extract_output_fields_from_select_item entry aliases)
          []
      some ⟨statement, [], output_fields⟩
  | _ => some ⟨statement, [], []⟩

/-- The statement loop of `parse_query_file` (main.rs:385-437): results
are pushed in order; a panic anywhere aborts the process, losing the
accumulated results. -/
def parse_query_file_loop :
    List Statement → List QueryParseResult → Option (List QueryParseResult)
  | [], results => some results
  | statement :: rest, results =>
    match analyze_statement statement with
    | none => none
    | some r => parse_query_file_loop rest (results ++ [r])

/-- `parse_query_file` (main.rs:376-439), after the external parse: the
statement loop started from an empty result vector.  As with
`parse_schema_file`, the `Err` branch wraps the external parser's error
and is modelled at the batch level. -/
def parse_query_file (ast : List Statement) : Option (List QueryParseResult) :=
  parse_query_file_loop ast []

/-- Statement-at-a-time specification of the loop: each statement is
analyzed independently and the results concatenated; the first panic
aborts. -/
def analyze_all : List Statement → Option (List QueryParseResult)
  | [] => some []
  | statement :: rest =>
    (analyze_statement statement).bind
      (fun r => (analyze_all rest).map (fun rs => r :: rs))

/-- The per-file loop of `main` (main.rs:162-199): a file whose external
parse failed is reported and skipped (`continue`); a file that parsed is
analyzed, and a panic inside the analysis aborts the process.  (The
`read_to_string` and directory-entry error arms, which also `continue`,
are I/O and outside this model.) -/
def runBatchLoop :
    List (Except QueryParseError (List Statement)) →
    List QueryParseResult → Option (List QueryParseResult)
  | [], queries => some queries
  | .error _ :: rest, queries => runBatchLoop rest queries
  | .ok ast :: rest, queries =>
    match parse_query_file ast with
    | none => none
    | some results => runBatchLoop rest (queries ++ results)

/-- The batch skeleton of `main` (main.rs:148-211): a schema parse failure
exits the process (main.rs:148-158, modelled as `none`); otherwise the
query files are processed by `runBatchLoop` and the schema is carried
along only to be printed at the end (main.rs:201-202). -/
def runBatch
    (schema_result : Except SchemaParseError SchemaParseResult)
    (files : List (Except QueryParseError (List Statement))) :
    Option (SchemaParseResult × List QueryParseResult) :=
  match schema_result with
  | .error _ => none
  | .ok schema => (runBatchLoop files []).map (fun qs => (schema, qs))

/-! ### Concrete inputs used by counterexamples and witnesses -/

/-- AST of `SELECT col FROM t` (one FROM table, no alias, bare
identifier projection). -/
def demoBareSelect : Statement :=
  .query ⟨.select ⟨[⟨.table "t" none, []⟩],
    [.unnamedExpr (.identifier "col")]⟩⟩

/-- AST of `SELECT * FROM orders AS o`. -/
def demoWildcardSelect : Statement :=
  .query ⟨.select ⟨[⟨.table "orders" (some "o"), []⟩], [.wildcard]⟩⟩

/-- AST of `SELECT o.id FROM orders AS o`. -/
def demoAliasSelect : Statement :=
  .query ⟨.select ⟨[⟨.table "orders" (some "o"), []⟩],
    [.unnamedExpr (.compoundIdentifier ["o", "id"])]⟩⟩

/-- AST of a query statement whose body is a set operation, e.g.
`SELECT 1 UNION SELECT 2`. -/
def demoUnionStmt : Statement := .query ⟨.setOperation⟩

/-- AST of a query statement whose body is a `VALUES` list. -/
def demoValuesStmt : Statement := .query ⟨.values⟩

/-- AST of a `SELECT c FROM (subquery)`: the FROM relation is not a plain
table. -/
def demoUnsupportedFromSelect : Statement :=
  .query ⟨.select ⟨[⟨.unsupportedRelation "Derived", []⟩],
    [.unnamedExpr (.identifier "c")]⟩⟩

/-- Schema AST declaring `orders (id INT, total INT)`. -/
def demoSchemaInt : SchemaParseResult :=
  parse_schema_file [.createTable "orders" [("id", "INT"), ("total", "INT")]]

/-- Schema AST declaring `orders (id TEXT, total TEXT)`: same tables and
columns as `demoSchemaInt`, different column types. -/
def demoSchemaText : SchemaParseResult :=
  parse_schema_file
    [.createTable "orders" [("id", "TEXT"), ("total", "TEXT")]]

/-- A six-line source text for diagnostic-window examples. -/
def demoText : String := "SELECT\nFROM\nWHERE\nGROUP\nORDER\nLIMIT"

/-- The diagnostic window the specification describes, written from the
spec's words ("a tab-prefixed, 1-based line-numbered window spanning two
lines before through two lines after the failure line (clamped to the
text's bounds)"): 1-based lines `n-2` through `n+2` of `text`, clamped to
`[1, number of lines]`, each rendered as `<line number>\t<line>`. -/
def specClaimedDebugWindow (text : String) (n : Nat) : String :=
  let all_lines := split_on text "\n"
  let lo := max (n - 2) 1
  let hi := min (n + 2) all_lines.length
  String.intercalate "\n"
    ((List.range (hi + 1 - lo)).map
      (fun i => toString (lo + i) ++ "\t" ++ all_lines.getD (lo + i - 1) ""))

end ICBINSQL

namespace ICBINSQL

/-! ### Helper lemmas on the HashMap model -/

/-- Looking up the key just inserted yields the inserted value. -/
theorem hmGet_insert_self {V : Type} (m : HM V) (k : String) (v : V) :
    hmGet (hmInsert k v m) k = some v := by
  simp [hmGet, hmInsert]

/-- Filtering out the bindings of a key other than `k` does not change the
lookup of `k`. -/
theorem hmGet_filter_ne {V : Type} (m : HM V) {k k2 : String} (h : k2 ≠ k) :
    hmGet (m.filter (fun p => p.1 != k2)) k = hmGet m k := by
  induction m with
  | nil => rfl
  | cons p rest ih =>
    obtain ⟨a, b⟩ := p
    simp only [List.filter_cons]
    by_cases ha : a = k2
    · subst ha
      simp [bne_self_eq_false, hmGet, h, ih]
    · have hcond : ((a, b).1 != k2) = true := by simpa [bne_iff_ne] using ha
      simp only [hcond, if_true]
      simp only [hmGet]
      by_cases hk : a = k <;> simp [hk, ih]

/-- Inserting under a different key does not change the lookup of `k`. -/
theorem hmGet_insert_ne {V : Type} (m : HM V) {k k2 : String} (v : V)
    (h : k2 ≠ k) : hmGet (hmInsert k2 v m) k = hmGet m k := by
  simp [hmInsert, hmGet, h, hmGet_filter_ne m h]

/-- Folding a list of insertions whose keys avoid `k` does not change the
lookup of `k`. -/
theorem hmGet_foldl_insert_not_mem {V : Type} (l : List (String × V))
    (m : HM V) (k : String) (h : k ∉ l.map Prod.fst) :
    hmGet (l.foldl (fun acc p => hmInsert p.1 p.2 acc) m) k = hmGet m k := by
  induction l generalizing m with
  | nil => rfl
  | cons p rest ih =>
    simp only [List.map_cons, List.mem_cons] at h
    push_neg at h
    simp only [List.foldl_cons]
    rw [ih _ h.2, hmGet_insert_ne _ _ (Ne.symm h.1)]

/-! ### Helper lemmas on the statement loop -/

/-- The statement loop is the independent per-statement analysis, appended
to the accumulator. -/
theorem parse_query_file_loop_eq (ast : List Statement) :
    ∀ acc, parse_query_file_loop ast acc =
      (analyze_all ast).map (fun rs => acc ++ rs) := by
  induction ast with
  | nil => intro acc; simp [parse_query_file_loop, analyze_all]
  | cons s rest ih =>
    intro acc
    cases h : analyze_statement s with
    | none => simp [parse_query_file_loop, analyze_all, h]
    | some r =>
      simp only [parse_query_file_loop, analyze_all, h, Option.some_bind]
      rw [ih (acc ++ [r])]
      cases analyze_all rest <;> simp

/-- `parse_query_file` is the independent per-statement analysis. -/
theorem parse_query_file_eq (ast : List Statement) :
    parse_query_file ast = analyze_all ast := by
  simp [parse_query_file, parse_query_file_loop_eq]

/-- Per-statement analysis distributes over concatenation of statement
lists. -/
theorem analyze_all_append (l1 l2 : List Statement) :
    analyze_all (l1 ++ l2) =
      (analyze_all l1).bind
        (fun r1 => (analyze_all l2).map (fun r2 => r1 ++ r2)) := by
  induction l1 with
  | nil =>
    simp only [List.nil_append, analyze_all]
    cases analyze_all l2 <;> simp
  | cons s rest ih =>
    simp only [List.cons_append, analyze_all]
    cases h : analyze_statement s with
    | none => simp [h]
    | some r =>
      simp only [h, Option.some_bind, List.append_eq]
      rw [ih]
      cases analyze_all rest with
      | none => simp
      | some rs => cases analyze_all l2 <;> simp

/-- Every successfully analyzed statement has empty `input_fields`: the
loop body creates the vector empty and never pushes to it. -/
theorem analyze_statement_input_fields (s : Statement) (r : QueryParseResult)
    (h : analyze_statement s = some r) : r.input_fields = [] := by
  cases s with
  | query q =>
    cases hq : q.body.as_select with
    | none => simp [analyze_statement, hq] at h
    | some sel =>
      simp only [analyze_statement, hq] at h
      obtain ⟨rfl⟩ := h
      rfl
  | insert => obtain ⟨rfl⟩ := h; rfl
  | update => obtain ⟨rfl⟩ := h; rfl
  | delete => obtain ⟨rfl⟩ := h; rfl
  | createTable t cs => obtain ⟨rfl⟩ := h; rfl
  | other d => obtain ⟨rfl⟩ := h; rfl

/-- `input_fields` emptiness, lifted through `analyze_all`. -/
theorem analyze_all_input_fields (ast : List Statement) :
    ∀ results, analyze_all ast = some results →
      ∀ r ∈ results, r.input_fields = [] := by
  induction ast with
  | nil =>
    intro results h r hr
    simp only [analyze_all, Option.some.injEq] at h
    subst h
    simp at hr
  | cons s rest ih =>
    intro results h r hr
    simp only [analyze_all] at h
    cases hs : analyze_statement s with
    | none => rw [hs] at h; simp at h
    | some r0 =>
      rw [hs] at h
      cases hrest : analyze_all rest with
      | none => rw [hrest] at h; simp at h
      | some rs =>
        rw [hrest] at h
        simp only [Option.some_bind, Option.map_some] at h
        cases h with
        | refl =>
          rcases List.mem_cons.mp hr with hr0 | hrs
          · subst hr0; exact analyze_statement_input_fields s r hs
          · exact ih rs hrest r hrs

end ICBINSQL

namespace ICBINSQL

/-! ### Claim theorems -/

/-- Claim C1 (code bug): the claim says unsupported constructs degrade and
never abort the batch.  A FROM entry whose relation is not a plain table
does degrade (last conjunct), but a `Query` whose body is not a plain
`SELECT` — e.g. `SELECT 1 UNION SELECT 2`, or a `VALUES` body — hits
`query.body.as_select().unwrap()` (main.rs:395), which panics and aborts
the whole process, losing every result of the batch (fourth conjunct). -/
theorem nonselect_body_panics :
    analyze_statement demoUnionStmt = none ∧
    analyze_statement demoValuesStmt = none ∧
    parse_query_file [demoUnionStmt] = none ∧
    runBatch (.ok demoSchemaInt) [.ok [demoUnionStmt], .ok [demoBareSelect]]
      = none ∧
    analyze_statement demoUnsupportedFromSelect =
      some ⟨demoUnsupportedFromSelect, [],
        [⟨.tableField none none none "c", "c"⟩]⟩ := by
  decide

/-- Claim C2, counterexample: for `SELECT col FROM t` — exactly one FROM
table, bare identifier projection — the claim requires the output field's
source to carry `table = some "t"`; the code emits `table = none`
unconditionally (main.rs:468-476). -/
theorem bare_identifier_scope_cex :
    parse_query_file [demoBareSelect] =
      some [⟨demoBareSelect, [],
        [⟨.tableField none none none "col", "col"⟩]⟩] ∧
    QueryOutputFieldSource.tableField none none none "col" ≠
      QueryOutputFieldSource.tableField none none (some "t") "col" := by
  decide

/-- Claim C2, amended: a bare identifier `col` always yields exactly one
output field with source `TableField{database: none, schema: none,
table: none, field: col}` and name `col`, regardless of the alias map and
of how many tables are in scope; no differently-shaped (or unresolved)
field is ever produced for it. -/
theorem bare_identifier_no_table :
    ∀ (ident : String) (aliases : HM String),
      extract_output_fields_from_select_item
          (.unnamedExpr (.identifier ident)) aliases =
        [⟨.tableField none none none ident, ident⟩] :=
  fun _ _ => rfl

/-- Claim C3, counterexample: for `SELECT * FROM orders AS o` with
`orders` declaring columns `(id, total)` in the schema, the claim requires
two output fields `id` then `total`; the code's `Wildcard` arm
(main.rs:531) is empty, so the statement yields zero output fields. -/
theorem wildcard_expansion_cex :
    hmGet demoSchemaInt.table_fields "orders" =
      some (column_map [("id", "INT"), ("total", "INT")]) ∧
    parse_query_file [demoWildcardSelect] =
      some [⟨demoWildcardSelect, [], []⟩] ∧
    ([] : List QueryOutputField) ≠
      [⟨.tableField none none (some "orders") "id", "id"⟩,
        ⟨.tableField none none (some "orders") "total", "total"⟩] := by
  decide

/-- Claim C3, amended: an unqualified wildcard projection item produces no
output fields at all — the `Wildcard` arm is an unimplemented no-op, so no
schema-order expansion happens. -/
theorem wildcard_produces_no_fields :
    ∀ aliases : HM String,
      extract_output_fields_from_select_item .wildcard aliases = [] :=
  fun _ => rfl

/-- Claim C4, counterexample: `SELECT o.id FROM orders AS o` resolves its
only output field to table `orders`, column `id`, which is present in both
`demoSchemaInt` (type `INT`) and `demoSchemaText` (type `TEXT`).  The
claim requires the field's `resolved_type` to equal the column's schema
type, hence to differ between the two runs; but the query analyses of the
two runs are identical, and the complete analysis output (last conjunct)
consists of a source and a name only — no type drawn from the schema is
assigned anywhere. -/
theorem resolved_type_cex :
    (hmGet demoSchemaInt.table_fields "orders").bind
        (fun t => hmGet t "id") = some "INT" ∧
    (hmGet demoSchemaText.table_fields "orders").bind
        (fun t => hmGet t "id") = some "TEXT" ∧
    (runBatch (.ok demoSchemaInt) [.ok [demoAliasSelect]]).map Prod.snd =
      (runBatch (.ok demoSchemaText) [.ok [demoAliasSelect]]).map Prod.snd ∧
    parse_query_file [demoAliasSelect] =
      some [⟨demoAliasSelect, [],
        [⟨.tableField none none (some "orders") "id", "id"⟩]⟩] := by
  decide

/-- Claim C4, amended: no `resolved_type` is assigned at all.
`QueryOutputField` consists of a source and a name only, the query
analysis never receives the SchemaModel (`parse_query_file` takes only the
statements), and consequently the analyses of a run are identical for any
two successfully parsed schemas — so absence of a schema match can raise
no error. -/
theorem analysis_schema_independent :
    ∀ (s1 s2 : SchemaParseResult)
      (files : List (Except QueryParseError (List Statement))),
      (runBatch (.ok s1) files).map Prod.snd =
        (runBatch (.ok s2) files).map Prod.snd := by
  intro s1 s2 files
  simp only [runBatch]
  cases runBatchLoop files [] <;> simp

/-- Claim C5: with the scope of `FROM orders AS o`, the projection item
`o.id` resolves through the alias map to `TableField{table: orders,
column: id}` with name `id`; `orders.id`, whose first part has no alias
binding, falls back to the literal text and resolves to the same field;
in general a two-part identifier whose first part is unbound uses that
part literally as the table component.  The last conjunct records that no
output field is ever marked unresolved: `QueryOutputFieldSource` has only
the `TableField` variant (and the SchemaModel is not consulted), so the
claim's "Unresolved only if absent from the SchemaModel" holds
vacuously. -/
theorem compound_identifier_alias_resolution :
    (extract_output_fields_from_select_item
        (.unnamedExpr (.compoundIdentifier ["o", "id"]))
        (extract_aliases_using_relation (.table "orders" (some "o"))) =
      [⟨.tableField none none (some "orders") "id", "id"⟩]) ∧
    (extract_output_fields_from_select_item
        (.unnamedExpr (.compoundIdentifier ["orders", "id"]))
        (extract_aliases_using_relation (.table "orders" (some "o"))) =
      [⟨.tableField none none (some "orders") "id", "id"⟩]) ∧
    (∀ (a f : String) (aliases : HM String), hmGet aliases a = none →
      extract_output_fields_from_select_item
          (.unnamedExpr (.compoundIdentifier [a, f])) aliases =
        [⟨.tableField none none (some a) f, f⟩]) ∧
    (∀ (item : SelectItem) (aliases : HM String) (out : QueryOutputField),
      out ∈ extract_output_fields_from_select_item item aliases →
      ∃ d s t c, out.source = .tableField d s t c) := by
  refine ⟨by decide, by decide, ?_, ?_⟩
  · intro a f aliases h
    simp [extract_output_fields_from_select_item, h]
  · intro item aliases out _
    obtain ⟨src, name⟩ := out
    obtain ⟨d, s, t, c⟩ := src
    exact ⟨d, s, t, c, rfl⟩

/-- Witness for the hypotheses of `compound_identifier_alias_resolution`,
at the unbound first part `x` with the empty alias map. -/
theorem compound_identifier_alias_resolution_witness :
    extract_output_fields_from_select_item
        (.unnamedExpr (.compoundIdentifier ["x", "y"])) ([] : HM String) =
      [⟨.tableField none none (some "x") "y", "y"⟩] ∧
    ∃ d s t c,
      (⟨.tableField none none (some "x") "y", "y"⟩ :
        QueryOutputField).source = .tableField d s t c :=
  ⟨compound_identifier_alias_resolution.2.2.1 "x" "y" [] (by decide),
    compound_identifier_alias_resolution.2.2.2
      (.unnamedExpr (.compoundIdentifier ["x", "y"])) []
      ⟨.tableField none none (some "x") "y", "y"⟩ (by decide)⟩

/-- Claim C6: a `CREATE TABLE t (c1 T1, …)` statement binds `t` in the
SchemaModel to the map of its columns, replacing any earlier binding of
`t` entirely (first conjunct: the lookup after processing depends only on
the last declaration); any statement that is not a table definition leaves
the model untouched (second conjunct); and within a column list the lookup
of a column name yields its declared type-expression text, with a later
duplicate declaration of the same name overwriting an earlier one (third
conjunct). -/
theorem schema_model_builder_correct :
    (∀ (ast : List Statement) (t : String) (cs : List (String × String)),
      hmGet (parse_schema_file (ast ++ [.createTable t cs])).table_fields t
        = some (column_map cs)) ∧
    (∀ (ast : List Statement) (s : Statement), s.is_create_table = false →
      parse_schema_file (ast ++ [s]) = parse_schema_file ast) ∧
    (∀ (cs1 cs2 : List (String × String)) (c T : String),
      c ∉ cs2.map Prod.fst →
      hmGet (column_map (cs1 ++ (c, T) :: cs2)) c = some T) := by
  refine ⟨?_, ?_, ?_⟩
  · intro ast t cs
    simp only [parse_schema_file, List.foldl_append, List.foldl_cons,
      List.foldl_nil]
    exact hmGet_insert_self _ _ _
  · intro ast s hs
    cases s <;>
      simp_all [parse_schema_file, List.foldl_append,
        Statement.is_create_table]
  · intro cs1 cs2 c T h
    simp only [column_map, List.foldl_append, List.foldl_cons]
    rw [hmGet_foldl_insert_not_mem _ _ _ h, hmGet_insert_self]

/-- Witness for the hypotheses of `schema_model_builder_correct`: a
non-table statement appended to a schema changes nothing, and a column
list with a duplicate column name resolves to the last declaration. -/
theorem schema_model_builder_correct_witness :
    parse_schema_file [.createTable "t" [("a", "INT")], .insert] =
      parse_schema_file [.createTable "t" [("a", "INT")]] ∧
    hmGet (column_map [("a", "INT"), ("b", "TEXT"), ("a", "REAL")]) "b" =
      some "TEXT" :=
  ⟨schema_model_builder_correct.2.1 [.createTable "t" [("a", "INT")]]
      .insert (by decide),
    schema_model_builder_correct.2.2 [("a", "INT")] [("a", "REAL")]
      "b" "TEXT" (by decide)⟩

/-- Claim C7: a schema parse failure terminates the whole run (first
conjunct, the `exit(1)` at main.rs:148-158); a query file whose parse
failed is skipped and the batch continues exactly as if that file were
absent, so every subsequent file is still analyzed (second conjunct, the
`continue` at main.rs:177-185); concretely, a failing file followed by a
good one still yields the good file's results (third conjunct). -/
theorem batch_error_isolation :
    (∀ (e : SchemaParseError)
        (files : List (Except QueryParseError (List Statement))),
      runBatch (.error e) files = none) ∧
    (∀ (schema : SchemaParseResult) (e : QueryParseError)
        (rest : List (Except QueryParseError (List Statement))),
      runBatch (.ok schema) (.error e :: rest) =
        runBatch (.ok schema) rest) ∧
    (runBatch (.ok demoSchemaInt)
        [.error ⟨.recursionLimitExceeded, none⟩, .ok [demoBareSelect]] =
      some (demoSchemaInt,
        [⟨demoBareSelect, [],
          [⟨.tableField none none none "col", "col"⟩]⟩])) :=
  ⟨fun _ _ => rfl, fun _ _ _ => rfl, by decide⟩

/-- Claim C8, counterexample: for the six-line text `demoText` and a parse
error reporting `Line: 4`, the claimed window ("two lines before through
two after, clamped") is lines 2-6, but the code's window is lines 3-6: the
`skip(line_start)` of main.rs:51 makes the window start at line `n-1`, one
line (not two) before the failure line.  The last conjunct shows the
no-location case (`-1`): the negative-to-`usize` cast skips past the whole
text and the block is empty rather than a window. -/
theorem debug_window_cex :
    extract_line_number_from_parse_error
        "sql parser error: Expected something, Line: 4, Column: 5" = 4 ∧
    extract_debug_block_with_line_number_range demoText (4 - 2) (4 + 2) =
      "3\tWHERE\n4\tGROUP\n5\tORDER\n6\tLIMIT" ∧
    specClaimedDebugWindow demoText 4 =
      "2\tFROM\n3\tWHERE\n4\tGROUP\n5\tORDER\n6\tLIMIT" ∧
    extract_debug_block_with_line_number_range demoText (4 - 2) (4 + 2) ≠
      specClaimedDebugWindow demoText 4 ∧
    extract_line_number_from_parse_error "no location available" = -1 ∧
    extract_debug_block_with_line_number_range demoText (-1 - 2) (-1 + 2) =
      "" := by
  decide

/-- Claim C8, amended: for an extracted line number `n` in the `i32` range
(the hypotheses), when `2 ≤ n` the rendered block is the tab-prefixed,
1-based-numbered window of four lines starting one line before the failure
line — `drop (n-2)` then `take 4` of the line list, i.e. lines `n-1`
through `n+2`, clamped at the end of the text by `take`; and when `n ≤ 1`
(including `n = -1`, the no-location sentinel) the `i32`-to-`usize` cast
turns `n - 2 < 0` into a skip of at least `2^64 - 2^31 - 2` lines, so for
any text with at most `2^62` lines the block is empty.  In both cases
construction stays within the line list's bounds — `drop`/`take` never
access an index outside it. -/
theorem debug_window_characterization (text : String) (n : Int)
    (hlo : -(2 : Int) ^ 31 ≤ n) (hhi : n < (2 : Int) ^ 31) :
    (2 ≤ n →
      extract_debug_block_with_line_number_range text (n - 2) (n + 2) =
        String.intercalate "\n"
          ((((split_on text "\n").drop ((n - 2).toNat)).take 4).enum.map
            (fun p =>
              toString ((n - 2).toNat + p.1 + 1) ++ "\t" ++ p.2))) ∧
    (n ≤ 1 → ((split_on text "\n").length : Int) ≤ (2 : Int) ^ 62 →
      extract_debug_block_with_line_number_range text (n - 2) (n + 2) =
        "") := by
  have p31 : (2 : Int) ^ 31 = 2147483648 := by norm_num
  have p64 : (2 : Int) ^ 64 = 18446744073709551616 := by norm_num
  rw [p31] at hlo hhi
  constructor
  · intro h2
    have e4 : usize_of_i32 (n + 2 - (n - 2)) = 4 := by
      have h4 : n + 2 - (n - 2) = (4 : Int) := by ring
      rw [h4]
      decide
    have es : usize_of_i32 (n - 2) = (n - 2).toNat := by
      unfold usize_of_i32
      rw [Int.emod_eq_of_lt (by omega) (by rw [p64]; omega)]
    simp only [extract_debug_block_with_line_number_range, es, e4]
  · intro h1 hlen
    have p62 : (2 : Int) ^ 62 = 4611686018427387904 := by norm_num
    rw [p62] at hlen
    have hbig : usize_of_i32 (n - 2) =
        (n - 2 + 18446744073709551616).toNat := by
      unfold usize_of_i32
      rw [p64]
      congr 1
      omega
    have hdrop : (split_on text "\n").drop (usize_of_i32 (n - 2)) = [] := by
      apply List.drop_eq_nil_of_le
      rw [hbig]
      omega
    simp only [extract_debug_block_with_line_number_range, hdrop,
      List.take_nil, List.enum_nil, List.map_nil]
    rfl

/-- Witness for the hypotheses of `debug_window_characterization`, at
`n = 4` on the six-line `demoText`. -/
theorem debug_window_characterization_witness :
    extract_debug_block_with_line_number_range demoText
        ((4 : Int) - 2) ((4 : Int) + 2) =
      "3\tWHERE\n4\tGROUP\n5\tORDER\n6\tLIMIT" :=
  (((debug_window_characterization demoText 4 (by decide) (by decide)).1
      (by decide)).trans (by decide))

/-- Claim C9: resolution is a pure function of the statement list — in
this embedding it cannot read or write hidden state, and no SchemaModel is
even an input — and it treats statements independently:
`parse_query_file` equals the independent per-statement map
`analyze_all` (first conjunct), and analyzing a batch splits as the
concatenation of the analyses of its parts, so resolving the same
statements a second time yields exactly the results of the first run again
(second conjunct, with `ast1 = ast2`). -/
theorem resolution_deterministic_independent :
    (∀ ast : List Statement, parse_query_file ast = analyze_all ast) ∧
    (∀ ast1 ast2 : List Statement,
      parse_query_file (ast1 ++ ast2) =
        (parse_query_file ast1).bind
          (fun r1 => (parse_query_file ast2).map (fun r2 => r1 ++ r2))) := by
  refine ⟨parse_query_file_eq, ?_⟩
  intro ast1 ast2
  rw [parse_query_file_eq, parse_query_file_eq, parse_query_file_eq,
    analyze_all_append]

/-- Claim C10: for every successfully analyzed query file, every result's
`input_fields` is empty: the loop body creates the vector empty
(main.rs:389) and no arm ever pushes to it. -/
theorem input_fields_always_empty :
    ∀ (ast : List Statement) (results : List QueryParseResult),
      parse_query_file ast = some results →
      ∀ r ∈ results, r.input_fields = [] := by
  intro ast results h
  rw [parse_query_file_eq] at h
  exact analyze_all_input_fields ast results h

/-- Witness for the hypotheses of `input_fields_always_empty`, at a
one-statement `INSERT` file. -/
theorem input_fields_always_empty_witness :
    (⟨Statement.insert, [], []⟩ : QueryParseResult).input_fields = [] :=
  input_fields_always_empty [Statement.insert]
    [⟨Statement.insert, [], []⟩] (by decide)
    ⟨Statement.insert, [], []⟩ (by decide)

end ICBINSQL
